import Mathlib

/-!
Verification of the RDS Data API compatibility shim
(`data_api_adaptor/rds_data_api_client.py`).

Strings are modelled as `List Char`.  Python scalar values are the closed
inductive `PyVal` (the six categories the argument encoder supports).  Python
dictionaries with a known key set become structures whose fields are `Option`
when the source reads them with `.get` or may face a missing key, and plain
fields when the key is always present.  Fallible code (key errors, unpacking
`None`, attribute errors) is modelled with `Except Unit`.
-/

/-- A Python scalar value, as classified by the encoder's type-name mapping:
`str`, `int`, `float`, `bool`, `datetime.datetime` and `NoneType`.
A `datetime` carries its `str()` rendering. -/
inductive PyVal : Type where
  | str (s : List Char)
  | int (n : Int)
  | float (q : Rat)
  | bool (b : Bool)
  | datetime (s : List Char)
  | null
deriving DecidableEq, Repr

/-- A Data API tagged value: a single-key mapping from a type tag
(for example `longValue`) to the stored value. -/
structure TaggedValue : Type where
  tag : List Char
  val : PyVal
deriving DecidableEq, Repr

/-- One encoded parameter:
`{'name': ..., 'value': {tag: value}, optional 'typeHint'}`. -/
structure EncodedParameter : Type where
  name : List Char
  value : TaggedValue
  typeHint : Option (List Char)
deriving DecidableEq, Repr

/-- Python truthiness of a scalar value. -/
def pyTruthy : PyVal → Bool
  | .str s => !s.isEmpty
  | .int n => n != 0
  | .float q => q != 0
  | .bool b => b
  | .datetime _ => true
  | .null => false

/-- Python truthiness of a `dict.get` result (`None` is falsy). -/
def truthyOpt : Option PyVal → Bool
  | Option.none => false
  | some v => pyTruthy v

/-- Python `tv.get key` on a single-key tagged-value dictionary. -/
def tvGet (tv : TaggedValue) (key : List Char) : Option PyVal :=
  if tv.tag = key then some tv.val else Option.none

/-- The `mapping` dictionary of `__map_argument_pair_to_data_api_arg`,
keyed by the runtime type of the argument value. -/
def typeMapping : PyVal → List Char
  | .str _ => ("stringValue").data
  | .int _ => ("longValue").data
  | .float _ => ("doubleValue").data
  | .bool _ => ("booleanValue").data
  | .datetime _ => ("stringValue").data
  | .null => ("isNull").data

/-- Test `'datetime' in str(type(arg_value))`: holds only for datetime values. -/
def isDatetimeVal : PyVal → Bool
  | .datetime _ => true
  | _ => false

/-- Python `str(arg_value)` as applied in the datetime branch of the encoder. -/
def pyStrDatetime : PyVal → PyVal
  | .datetime s => .str s
  | v => v

/-- Encoder `__map_argument_pair_to_data_api_arg`: maps an argument name/value pair to
the Data API parameter structure.  Datetimes gain a `TIMESTAMP` type hint and
are rendered as strings; a `None` value is stored as the boolean `True`
under the `isNull` tag. -/
def map_argument_pair_to_data_api_arg (arg_name : List Char) (arg_value : PyVal) :
    EncodedParameter :=
  let arg_datatype := typeMapping arg_value
  let typeHint := if isDatetimeVal arg_value then some (("TIMESTAMP").data) else Option.none
  let v1 := if isDatetimeVal arg_value then pyStrDatetime arg_value else arg_value
  let v2 := if v1 = PyVal.null then PyVal.bool true else v1
  { name := arg_name, value := { tag := arg_datatype, val := v2 }, typeHint := typeHint }

/-- The per-cell decoding rule of `data_api_response_to_pymysql_response`:
`value if key != 'isNull' else None`. -/
def decodeCell (tv : TaggedValue) : Option PyVal :=
  if tv.tag ≠ ("isNull").data then some tv.val else Option.none

/-- C3: encoding the null value produces the single tag `isNull` paired with the
stored boolean `true` (and no type hint), and the cell decoder maps any tagged
value whose tag is `isNull` to null regardless of the stored value; hence an
encoded null decodes back to null. -/
theorem null_round_trip (arg_name : List Char) :
    map_argument_pair_to_data_api_arg arg_name PyVal.null
      = { name := arg_name,
          value := { tag := ("isNull").data, val := PyVal.bool true },
          typeHint := Option.none } ∧
    (∀ v : PyVal, decodeCell { tag := ("isNull").data, val := v } = Option.none) ∧
    decodeCell (map_argument_pair_to_data_api_arg arg_name PyVal.null).value = Option.none := by
  refine ⟨rfl, ?_, rfl⟩
  intro v
  simp [decodeCell]

/-- C6: encoding a boolean value always yields the tag `booleanValue`,
never `longValue`. -/
theorem bool_encoding_priority (arg_name : List Char) (b : Bool) :
    (map_argument_pair_to_data_api_arg arg_name (PyVal.bool b)).value.tag
        = ("booleanValue").data ∧
    (map_argument_pair_to_data_api_arg arg_name (PyVal.bool b)).value.tag
        ≠ ("longValue").data := by
  refine ⟨rfl, ?_⟩
  simp [map_argument_pair_to_data_api_arg, typeMapping]

/-- C10: only null is replaced by the `true` placeholder: encoding `False`
yields `{booleanValue: False}`, encoding `0` yields `{longValue: 0}`, and the
`isNull` tag (with its `true` placeholder) arises exactly for the null
argument. -/
theorem only_null_gets_placeholder (arg_name : List Char) :
    (map_argument_pair_to_data_api_arg arg_name (PyVal.bool false)).value
        = { tag := ("booleanValue").data, val := PyVal.bool false } ∧
    (map_argument_pair_to_data_api_arg arg_name (PyVal.int 0)).value
        = { tag := ("longValue").data, val := PyVal.int 0 } ∧
    (∀ v : PyVal,
      (map_argument_pair_to_data_api_arg arg_name v).value.tag = ("isNull").data
        ↔ v = PyVal.null) ∧
    (map_argument_pair_to_data_api_arg arg_name PyVal.null).value
        = { tag := ("isNull").data, val := PyVal.bool true } := by
  refine ⟨rfl, rfl, ?_, rfl⟩
  intro v
  cases v <;> simp [map_argument_pair_to_data_api_arg, typeMapping]

/-! ## String machinery: substring test, marker counting, replacement -/

/-- Python's substring test `pat in s`. -/
def hasSub (pat : List Char) : List Char → Bool
  | [] => pat.isEmpty
  | c :: rest => pat.isPrefixOf (c :: rest) || hasSub pat rest

/-- The positional placeholder marker `%s`. -/
def marker : List Char := ['%', 's']

/-- Predicate: `s` has no occurrence of the marker `%s`. -/
def noMark : List Char → Bool
  | [] => true
  | c :: rest => !(marker.isPrefixOf (c :: rest)) && noMark rest

/-- Number of (left-to-right, non-overlapping) occurrences of `%s` in `s`. -/
def countMarker : List Char → Nat
  | [] => 0
  | [_] => 0
  | c :: d :: rest =>
      if marker.isPrefixOf (c :: d :: rest) then countMarker rest + 1
      else countMarker (d :: rest)

/-- Python's `s.replace(pat, rep, 1)`: replace the first occurrence only.
(For the empty pattern Python would prepend `rep`; the adaptor only ever
replaces the nonempty `%s`.) -/
def replaceFirst (pat rep : List Char) : List Char → List Char
  | [] => []
  | c :: rest =>
      if pat.isPrefixOf (c :: rest) then rep ++ (c :: rest).drop pat.length
      else c :: replaceFirst pat rep rest

/-- Python's `s.replace(pat, rep)`: replace every (left-to-right,
non-overlapping) occurrence of a nonempty `pat`. -/
def replaceAll (pat rep : List Char) (s : List Char) : List Char :=
  match s with
  | [] => []
  | c :: rest =>
      if pat.isPrefixOf (c :: rest) && !pat.isEmpty then
        rep ++ replaceAll pat rep (rest.drop (pat.length - 1))
      else
        c :: replaceAll pat rep rest
termination_by s.length
decreasing_by
  · simp only [List.length_cons, List.length_drop]
    omega
  · simp only [List.length_cons]
    omega

/-- A decimal digit character. -/
def digitChar : Nat → Char
  | 0 => '0' | 1 => '1' | 2 => '2' | 3 => '3' | 4 => '4'
  | 5 => '5' | 6 => '6' | 7 => '7' | 8 => '8' | _ => '9'

/-- Decimal rendering of a natural number, as produced by an f-string. -/
def natToChars (n : Nat) : List Char :=
  if _h : n < 10 then [digitChar n]
  else natToChars (n / 10) ++ [digitChar (n % 10)]
decreasing_by
  exact Nat.div_lt_self (by omega) (by omega)

/-- The synthetic parameter name `parameter_i`. -/
def paramName (i : Nat) : List Char := ("parameter_").data ++ natToChars i

/-- The synthetic placeholder `:parameter_i` spliced into the query. -/
def paramPlaceholder (i : Nat) : List Char := ':' :: paramName i

/-! ## Basic lemmas about the `%s` marker -/

theorem marker_isPrefixOf_one (c : Char) : marker.isPrefixOf [c] = false := by
  simp [marker, List.isPrefixOf]

theorem marker_isPrefixOf_two (c d : Char) (rest : List Char) :
    marker.isPrefixOf (c :: d :: rest) = (('%' == c) && ('s' == d)) := by
  simp [marker, List.isPrefixOf]

theorem marker_isPrefixOf_head (c : Char) (rest : List Char) (h : ('%' == c) = false) :
    marker.isPrefixOf (c :: rest) = false := by
  cases rest with
  | nil => exact marker_isPrefixOf_one c
  | cons d rest' => rw [marker_isPrefixOf_two, h, Bool.false_and]

/-- Python's `'%s' in s` test agrees with the negation of `noMark`. -/
theorem hasSub_marker_eq_noMark (s : List Char) : hasSub marker s = !(noMark s) := by
  induction s with
  | nil => rfl
  | cons c rest ih =>
    simp only [hasSub, noMark, ih, Bool.not_and, Bool.not_not]

theorem noMark_countMarker_zero (s : List Char) (h : noMark s = true) :
    countMarker s = 0 := by
  induction s using countMarker.induct with
  | case1 => rfl
  | case2 => rfl
  | case3 c d rest hp ih =>
    rw [noMark, hp] at h
    simp at h
  | case4 c d rest hp ih =>
    simp only [countMarker, hp, if_false]
    apply ih
    rw [noMark, Bool.and_eq_true] at h
    exact h.2

/-- A string whose characters avoid `%` entirely. -/
def segOk (s : List Char) : Bool := s.all (fun c => !(c == '%'))

theorem noMark_append_left (A B : List Char) (hA : segOk A = true) (hB : noMark B = true) :
    noMark (A ++ B) = true := by
  induction A with
  | nil => simpa using hB
  | cons c A' ih =>
    simp only [segOk, List.all_cons, Bool.and_eq_true, Bool.not_eq_true'] at hA
    simp only [List.cons_append, noMark, Bool.and_eq_true]
    refine ⟨?_, ih (by simp [segOk, hA.2])⟩
    have hc : ('%' == c) = false := by
      have : ¬ (c = '%') := by simpa using hA.1
      simpa [beq_iff_eq] using fun hcontr => this hcontr.symm
    rw [marker_isPrefixOf_head c _ hc]
    rfl

/-- Predicate: `B` starts with something other than `s` (or is empty). -/
def headNotS : List Char → Bool
  | [] => true
  | c :: _ => !('s' == c)

theorem noMark_append_right (A B : List Char) (hA : noMark A = true) (hB : noMark B = true)
    (hHead : headNotS B = true) : noMark (A ++ B) = true := by
  induction A with
  | nil => simpa using hB
  | cons c A' ih =>
    simp only [noMark, Bool.and_eq_true] at hA
    simp only [List.cons_append, noMark, Bool.and_eq_true]
    refine ⟨?_, ih hA.2⟩
    cases A' with
    | nil =>
      cases B with
      | nil => simp [marker_isPrefixOf_one]
      | cons b B' =>
        simp only [headNotS, Bool.not_eq_true'] at hHead
        simp [marker_isPrefixOf_two, hHead]
    | cons a A'' =>
      have h1 := hA.1
      rw [marker_isPrefixOf_two] at h1
      show (!marker.isPrefixOf (c :: a :: (A'' ++ B))) = true
      rw [marker_isPrefixOf_two]
      simpa using h1

/-! ## The synthetic placeholder is inert with respect to `%s` -/

theorem digitChar_ne_pct (m : Nat) : ('%' == digitChar m) = false := by
  unfold digitChar
  split <;> rfl

theorem natToChars_no_pct (n : Nat) : ∀ c ∈ natToChars n, ('%' == c) = false := by
  induction n using Nat.strong_induction_on with
  | _ n ih =>
    intro c hc
    rw [natToChars] at hc
    split at hc
    · simp only [List.mem_singleton] at hc
      rw [hc]
      exact digitChar_ne_pct n
    · rw [List.mem_append] at hc
      rcases hc with hc | hc
      · exact ih (n / 10) (Nat.div_lt_self (by omega) (by omega)) c hc
      · simp only [List.mem_singleton] at hc
        rw [hc]
        exact digitChar_ne_pct (n % 10)

theorem paramPlaceholder_segOk (i : Nat) : segOk (paramPlaceholder i) = true := by
  simp only [paramPlaceholder, paramName, segOk, List.all_cons, List.all_append,
    Bool.and_eq_true, List.all_eq_true]
  refine ⟨by decide, by decide, ?_⟩
  intro c hc
  have h2 := natToChars_no_pct i c hc
  simp only [Bool.not_eq_true', beq_eq_false_iff_ne]
  exact fun hcc => by simp [hcc] at h2

theorem paramPlaceholder_head (i : Nat) (X : List Char) :
    headNotS (paramPlaceholder i ++ X) = true := by
  simp [paramPlaceholder, headNotS]

theorem segOk_noMark (s : List Char) (h : segOk s = true) : noMark s = true := by
  have := noMark_append_left s [] h rfl
  simpa using this

/-! ## Decomposition of a query at its `%s` markers -/

/-- Split `s` at each (left-to-right, non-overlapping) occurrence of `%s`:
the result is the list of separating pieces, one more piece than there are
markers, and `s` is recovered by interleaving `%s` between the pieces. -/
def splitPieces : List Char → List (List Char)
  | [] => [[]]
  | [c] => [[c]]
  | c :: d :: rest =>
      if marker.isPrefixOf (c :: d :: rest) then
        [] :: splitPieces rest
      else
        match splitPieces (d :: rest) with
        | [] => [[c]]
        | s :: ss => (c :: s) :: ss

/-- Interleave `%s` between the pieces. -/
def joinPieces : List (List Char) → List Char
  | [] => []
  | [s] => s
  | s :: rest => s ++ marker ++ joinPieces rest

/-- Interleave the synthetic placeholders `:parameter_i`, `i` counting up,
between the pieces: the shape of the fully rewritten query. -/
def rebuilt : List (List Char) → Nat → List Char
  | [], _ => []
  | [s], _ => s
  | s :: rest, i => s ++ paramPlaceholder i ++ rebuilt rest (i + 1)

theorem splitPieces_ne_nil (s : List Char) : splitPieces s ≠ [] := by
  induction s using splitPieces.induct with
  | case1 => simp [splitPieces]
  | case2 c => simp [splitPieces]
  | case3 c d rest hp ih =>
    simp [splitPieces, hp]
  | case4 c d rest hp hsp ih =>
    rw [splitPieces, if_neg hp, hsp]
    simp
  | case5 c d rest hp s ss hsp ih =>
    rw [splitPieces, if_neg hp, hsp]
    simp

theorem marker_prefix_chars (c d : Char) (rest : List Char)
    (hp : marker.isPrefixOf (c :: d :: rest) = true) : c = '%' ∧ d = 's' := by
  rw [marker_isPrefixOf_two] at hp
  simp only [Bool.and_eq_true, beq_iff_eq] at hp
  exact ⟨hp.1.symm, hp.2.symm⟩

theorem joinPieces_cons_head (c : Char) (s : List Char) (ss : List (List Char)) :
    joinPieces ((c :: s) :: ss) = c :: joinPieces (s :: ss) := by
  cases ss with
  | nil => rfl
  | cons t ts => simp [joinPieces]

theorem joinPieces_splitPieces (s : List Char) : joinPieces (splitPieces s) = s := by
  induction s using splitPieces.induct with
  | case1 => rfl
  | case2 c => rfl
  | case3 c d rest hp ih =>
    obtain ⟨hc, hd⟩ := marker_prefix_chars c d rest hp
    rw [splitPieces, if_pos hp]
    cases hsp : splitPieces rest with
    | nil => exact absurd hsp (splitPieces_ne_nil rest)
    | cons x xs =>
      rw [hsp] at ih
      subst hc hd
      simp only [joinPieces, List.nil_append, marker]
      rw [← hsp] at ih ⊢
      rw [ih]
      rfl
  | case4 c d rest hp hsp ih =>
    exact absurd hsp (splitPieces_ne_nil _)
  | case5 c d rest hp x xs hsp ih =>
    rw [splitPieces, if_neg hp, hsp, joinPieces_cons_head, ← hsp, ih]

theorem splitPieces_head_shape (d : Char) (rest : List Char) (s : List Char)
    (ss : List (List Char)) (hsp : splitPieces (d :: rest) = s :: ss) :
    s = [] ∨ ∃ s2, s = d :: s2 := by
  cases rest with
  | nil =>
    rw [splitPieces] at hsp
    injection hsp with h1 _
    exact Or.inr ⟨[], h1.symm⟩
  | cons e rest' =>
    rw [splitPieces] at hsp
    split at hsp
    · injection hsp with h1 _
      exact Or.inl h1.symm
    · split at hsp
      · injection hsp with h1 _
        exact Or.inr ⟨[], h1.symm⟩
      · injection hsp with h1 _
        exact Or.inr ⟨_, h1.symm⟩

theorem splitPieces_noMark (s : List Char) :
    ∀ p ∈ splitPieces s, noMark p = true := by
  induction s using splitPieces.induct with
  | case1 =>
    intro p hp
    simp only [splitPieces, List.mem_singleton] at hp
    simp [hp, noMark]
  | case2 c =>
    intro p hp
    simp only [splitPieces, List.mem_singleton] at hp
    simp [hp, noMark, marker_isPrefixOf_one]
  | case3 c d rest hp ih =>
    intro p hmem
    rw [splitPieces, if_pos hp] at hmem
    rcases List.mem_cons.mp hmem with h | h
    · simp [h, noMark]
    · exact ih p h
  | case4 c d rest hp hsp ih =>
    exact absurd hsp (splitPieces_ne_nil _)
  | case5 c d rest hp x xs hsp ih =>
    intro p hmem
    rw [splitPieces, if_neg hp, hsp] at hmem
    rcases List.mem_cons.mp hmem with h | h
    · subst h
      have hx : noMark x = true := ih x (by rw [hsp]; exact List.mem_cons_self x xs)
      rw [noMark, Bool.and_eq_true]
      refine ⟨?_, hx⟩
      cases x with
      | nil => simp [marker_isPrefixOf_one]
      | cons e x' =>
        rcases splitPieces_head_shape d rest _ _ hsp with h0 | ⟨s2, h2⟩
        · exact absurd h0 (by simp)
        · injection h2 with he _
          subst he
          rw [marker_isPrefixOf_two]
          rw [marker_isPrefixOf_two] at hp
          cases h1 : ('%' == c) <;> cases h2 : ('s' == e) <;> simp_all
    · exact ih p (by rw [hsp]; exact List.mem_cons_of_mem x h)

theorem splitPieces_length (s : List Char) :
    (splitPieces s).length = countMarker s + 1 := by
  induction s using splitPieces.induct with
  | case1 => rfl
  | case2 c => rfl
  | case3 c d rest hp ih =>
    rw [splitPieces, if_pos hp, countMarker, if_pos hp]
    simp [ih]
  | case4 c d rest hp hsp ih =>
    exact absurd hsp (splitPieces_ne_nil _)
  | case5 c d rest hp x xs hsp ih =>
    rw [splitPieces, if_neg hp, hsp, countMarker, if_neg hp]
    rw [hsp] at ih
    simpa using ih

/-! ## Replacing the first marker in a decomposed query -/

theorem replaceFirst_clean (p0 rep T : List Char) (h : noMark p0 = true) :
    replaceFirst marker rep (p0 ++ '%' :: 's' :: T) = p0 ++ rep ++ T := by
  induction p0 with
  | nil =>
    simp only [List.nil_append]
    rw [replaceFirst, if_pos (by rw [marker_isPrefixOf_two]; simp)]
    simp [marker]
  | cons c p0' ih =>
    rw [noMark, Bool.and_eq_true] at h
    have hpref : marker.isPrefixOf (c :: (p0' ++ '%' :: 's' :: T)) = false := by
      cases p0' with
      | nil =>
        simp only [List.nil_append]
        rw [marker_isPrefixOf_two]
        simp
      | cons a p0'' =>
        show marker.isPrefixOf (c :: a :: (p0'' ++ '%' :: 's' :: T)) = false
        rw [marker_isPrefixOf_two]
        have h1 := h.1
        rw [marker_isPrefixOf_two] at h1
        cases hx : ('%' == c) <;> cases hy : ('s' == a) <;> simp_all
    show replaceFirst marker rep (c :: (p0' ++ '%' :: 's' :: T))
        = c :: (p0' ++ rep ++ T)
    rw [replaceFirst, if_neg (by simp [hpref]), ih h.2]

theorem rebuilt_cons_cons (A B q0 : List Char) (qs : List (List Char)) (j : Nat) :
    rebuilt ((A ++ B ++ q0) :: qs) j = A ++ B ++ rebuilt (q0 :: qs) j := by
  cases qs with
  | nil => rfl
  | cons r rs => simp [rebuilt, List.append_assoc]

theorem rebuilt_noMark (pieces : List (List Char)) (i : Nat)
    (h : ∀ p ∈ pieces, noMark p = true) : noMark (rebuilt pieces i) = true := by
  induction pieces generalizing i with
  | nil => rfl
  | cons s rest ih =>
    cases rest with
    | nil => exact h s (by simp)
    | cons t ts =>
      show noMark (s ++ paramPlaceholder i ++ rebuilt (t :: ts) (i + 1)) = true
      rw [List.append_assoc]
      refine noMark_append_right s _ (h s (by simp)) ?_ ?_
      · exact noMark_append_left _ _ (paramPlaceholder_segOk i)
          (ih (i + 1) (fun p hp => h p (List.mem_cons_of_mem s hp)))
      · exact paramPlaceholder_head i _

theorem joinPieces_cons_cons (p0 q0 : List Char) (qs : List (List Char)) :
    joinPieces (p0 :: q0 :: qs) = p0 ++ '%' :: 's' :: joinPieces (q0 :: qs) := by
  simp [joinPieces, marker, List.append_assoc]

theorem joinPieces_absorb (A B q0 : List Char) (qs : List (List Char)) :
    joinPieces ((A ++ B ++ q0) :: qs) = A ++ B ++ joinPieces (q0 :: qs) := by
  cases qs with
  | nil => rfl
  | cons r rs => simp [joinPieces, List.append_assoc]

/-! ## The positional translation `__convert_query_and_list_or_tuple_query_args` -/

/-- The `for index, query_arg in enumerate(query_args)` loop: each step replaces
the first remaining `%s` by `:parameter_i` and encodes the argument under the
name `parameter_i`; `i` is the enumeration index of the first argument. -/
def convertPosAux (query : List Char) (i : Nat) :
    List PyVal → List Char × List EncodedParameter
  | [] => (query, [])
  | a :: rest =>
      let q2 := replaceFirst marker (paramPlaceholder i) query
      let r := convertPosAux q2 (i + 1) rest
      (r.1, map_argument_pair_to_data_api_arg (paramName i) a :: r.2)

/-- Translator `__convert_query_and_list_or_tuple_query_args`. -/
def convert_query_and_list_or_tuple_query_args (query : List Char)
    (query_args : List PyVal) : List Char × List EncodedParameter :=
  convertPosAux query 0 query_args

/-- The encoded-parameter list produced by the positional loop, starting at
enumeration index `i`. -/
def posEncoded (i : Nat) : List PyVal → List EncodedParameter
  | [] => []
  | a :: rest => map_argument_pair_to_data_api_arg (paramName i) a :: posEncoded (i + 1) rest

theorem convertPosAux_snd (args : List PyVal) (query : List Char) (i : Nat) :
    (convertPosAux query i args).2 = posEncoded i args := by
  induction args generalizing query i with
  | nil => rfl
  | cons a rest ih => simp [convertPosAux, posEncoded, ih]

theorem posEncoded_names (args : List PyVal) (i : Nat) :
    (posEncoded i args).map (fun e => e.name)
      = (List.range args.length).map (fun j => paramName (i + j)) := by
  induction args generalizing i with
  | nil => rfl
  | cons a rest ih =>
    simp only [posEncoded, List.map_cons, List.length_cons, List.range_succ_eq_map,
      List.map_map]
    congr 1
    rw [ih (i + 1)]
    apply List.map_congr_left
    intro j hj
    simp only [Function.comp_apply]
    congr 1
    omega

theorem posEncoded_length (args : List PyVal) (i : Nat) :
    (posEncoded i args).length = args.length := by
  induction args generalizing i with
  | nil => rfl
  | cons a rest ih => simp [posEncoded, ih]

theorem convertPosAux_fst (args : List PyVal) (pieces : List (List Char)) (i : Nat)
    (hlen : pieces.length = args.length + 1)
    (hcl : ∀ p ∈ pieces, noMark p = true) :
    (convertPosAux (joinPieces pieces) i args).1 = rebuilt pieces i := by
  induction args generalizing pieces i with
  | nil =>
    cases pieces with
    | nil => simp at hlen
    | cons p ps =>
      cases ps with
      | nil => rfl
      | cons q qs => simp at hlen
  | cons a rest ih =>
    cases pieces with
    | nil => simp at hlen
    | cons p0 ps =>
      cases ps with
      | nil => simp at hlen
      | cons q0 qs =>
        show (convertPosAux
            (replaceFirst marker (paramPlaceholder i) (joinPieces (p0 :: q0 :: qs)))
            (i + 1) rest).1 = rebuilt (p0 :: q0 :: qs) i
        rw [joinPieces_cons_cons,
          replaceFirst_clean p0 _ _ (hcl p0 (by simp))]
        have hnew : noMark (p0 ++ paramPlaceholder i ++ q0) = true := by
          rw [List.append_assoc]
          refine noMark_append_right p0 _ (hcl p0 (by simp)) ?_ ?_
          · exact noMark_append_left _ _ (paramPlaceholder_segOk i)
              (hcl q0 (by simp))
          · exact paramPlaceholder_head i _
        have hstep := ih ((p0 ++ paramPlaceholder i ++ q0) :: qs) (i + 1)
          (by simpa using (by simpa using hlen : qs.length + 2 = rest.length + 2))
          (by
            intro p hp
            rcases List.mem_cons.mp hp with h | h
            · rw [h]; exact hnew
            · exact hcl p (by simp [h]))
        rw [joinPieces_absorb] at hstep
        rw [hstep, rebuilt_cons_cons]
        rfl

/-! ## The named-marker search and the translation dispatcher -/

/-- Helper for the `%(\S+)s` search: some later character is `s` and every
character before it is non-whitespace. -/
def sRun : List Char → Bool
  | [] => false
  | c :: rest => ('s' == c) || (!c.isWhitespace && sRun rest)

/-- A `%(\S+)s` match starting immediately after a `%`: at least one
non-whitespace character, then a literal `s`. -/
def matchPct : List Char → Bool
  | [] => false
  | c :: rest => !c.isWhitespace && sRun rest

/-- Python `re.search(r'%(\S+)s', query) is not None`: a match may start anywhere. -/
def namedSearch : List Char → Bool
  | [] => false
  | c :: rest => (('%' == c) && matchPct rest) || namedSearch rest

/-- The named-marker literal `%(<name>)s`. -/
def namedMarker (name : List Char) : List Char :=
  '%' :: '(' :: (name ++ [')', 's'])

/-- Translator `__convert_query_and_dict_query_args`: for each name/value item of the
argument dictionary (in insertion order), replace every occurrence of
`%(<name>)s` by `:<name>` and encode the value under `<name>`. -/
def convert_query_and_dict_query_args (query : List Char)
    (query_args : List (List Char × PyVal)) : List Char × List EncodedParameter :=
  query_args.foldl
    (fun acc p =>
      (replaceAll (namedMarker p.1) (':' :: p.1) acc.1,
       acc.2 ++ [map_argument_pair_to_data_api_arg p.1 p.2]))
    (query, [])

/-- Caller-supplied query arguments: a positional sequence, or a name-keyed
dictionary modelled as an insertion-ordered association list. -/
inductive QueryArgs : Type where
  | positional (l : List PyVal)
  | named (d : List (List Char × PyVal))
deriving DecidableEq, Repr

/-- Iterating the arguments as `enumerate` does: a dictionary iterates over
its keys (each a string). -/
def argsSeq : QueryArgs → List PyVal
  | .positional l => l
  | .named d => d.map (fun p => PyVal.str p.1)

/-- Dispatcher `convert_query_and_query_args_for_data_api`: dispatch on the query text.
The positional branch fires when the query contains `%s`; otherwise the named
branch fires when the query matches the `%(\S+)s` search; otherwise the
function falls off its end and returns Python's `None`
(modelled `Except.ok Option.none`).  A named-branch call with positional
arguments raises (`query_args.items()` on a list). -/
def convert_query_and_query_args_for_data_api (query : List Char)
    (query_args : QueryArgs) :
    Except Unit (Option (List Char × List EncodedParameter)) :=
  if hasSub marker query = true then
    Except.ok (some (convert_query_and_list_or_tuple_query_args query (argsSeq query_args)))
  else if namedSearch query = true then
    match query_args with
    | .named d => Except.ok (some (convert_query_and_dict_query_args query d))
    | .positional _ => Except.error ()
  else Except.ok Option.none

/-- C1 (amended to require at least one marker): for a query containing exactly
`k ≥ 1` occurrences of `%s` and a positional argument sequence of length `k`,
translation returns the query with its `i`-th marker (left to right, from 0)
replaced by `:parameter_i`, no `%s` remaining, and exactly `k` encoded
parameters named `parameter_0 .. parameter_{k-1}` in order.  The claim's
`k = 0` case fails: the counterexample shows a concrete marker-free query on
which translation returns Python's `None` instead of the claimed pair. -/
theorem positional_round_trip (query : List Char) (args : List PyVal) (k : Nat)
    (hq : countMarker query = k) (ha : args.length = k) (hk : 1 ≤ k) :
    ∃ pieces : List (List Char),
      pieces.length = k + 1 ∧
      joinPieces pieces = query ∧
      (∀ p ∈ pieces, noMark p = true) ∧
      convert_query_and_query_args_for_data_api query (QueryArgs.positional args)
        = Except.ok (some (rebuilt pieces 0, posEncoded 0 args)) ∧
      hasSub marker (rebuilt pieces 0) = false ∧
      (posEncoded 0 args).length = k ∧
      (posEncoded 0 args).map (fun e => e.name) = (List.range k).map paramName := by
  have hnm : noMark query = false := by
    cases hn : noMark query
    · rfl
    · exact absurd (noMark_countMarker_zero query hn) (by omega)
  have hhs : hasSub marker query = true := by
    rw [hasSub_marker_eq_noMark, hnm]
    rfl
  refine ⟨splitPieces query, ?_, joinPieces_splitPieces query,
    splitPieces_noMark query, ?_, ?_, ?_, ?_⟩
  · rw [splitPieces_length, hq]
  · have h1 : (convertPosAux query 0 args).1 = rebuilt (splitPieces query) 0 := by
      have h0 := convertPosAux_fst args (splitPieces query) 0
        (by rw [splitPieces_length, hq, ha]) (splitPieces_noMark query)
      rwa [joinPieces_splitPieces] at h0
    have h2 := convertPosAux_snd args query 0
    rw [convert_query_and_query_args_for_data_api, if_pos hhs]
    show Except.ok (some (convertPosAux query 0 args)) = _
    rw [← h1, ← h2]
  · rw [hasSub_marker_eq_noMark,
      rebuilt_noMark (splitPieces query) 0 (splitPieces_noMark query)]
    rfl
  · rw [posEncoded_length, ha]
  · rw [posEncoded_names, ha]
    apply List.map_congr_left
    intro j hj
    simp

/-- C1 counterexample: the concrete query `SELECT 1` contains zero `%s`
markers and matches the named-marker search nowhere, so with the empty
argument sequence (`k = 0`) translation returns Python's `None`, not the pair
of the unchanged query and an empty parameter list that the claim requires. -/
theorem positional_round_trip_zero_counterexample :
    convert_query_and_query_args_for_data_api (("SELECT 1").data)
        (QueryArgs.positional [])
      = Except.ok Option.none ∧
    convert_query_and_query_args_for_data_api (("SELECT 1").data)
        (QueryArgs.positional [])
      ≠ Except.ok (some ((("SELECT 1").data), [])) := by
  refine ⟨rfl, ?_⟩
  intro h
  have h0 : convert_query_and_query_args_for_data_api (("SELECT 1").data)
      (QueryArgs.positional []) = Except.ok Option.none := rfl
  have h2 := h0.symm.trans h
  simp at h2

/-- C1 witness: the amended theorem applied to a concrete two-marker query. -/
theorem positional_round_trip_witness :
    countMarker (("UPDATE t SET a=%s WHERE b=%s").data) = 2 ∧
    [PyVal.int 1, PyVal.str (("x").data)].length = 2 ∧
    1 ≤ 2 ∧
    (∃ pieces : List (List Char),
      pieces.length = 2 + 1 ∧
      joinPieces pieces = ("UPDATE t SET a=%s WHERE b=%s").data ∧
      (∀ p ∈ pieces, noMark p = true) ∧
      convert_query_and_query_args_for_data_api (("UPDATE t SET a=%s WHERE b=%s").data)
          (QueryArgs.positional [PyVal.int 1, PyVal.str (("x").data)])
        = Except.ok (some (rebuilt pieces 0,
            posEncoded 0 [PyVal.int 1, PyVal.str (("x").data)])) ∧
      hasSub marker (rebuilt pieces 0) = false ∧
      (posEncoded 0 [PyVal.int 1, PyVal.str (("x").data)]).length = 2 ∧
      (posEncoded 0 [PyVal.int 1, PyVal.str (("x").data)]).map (fun e => e.name)
        = (List.range 2).map paramName) :=
  ⟨by decide, rfl, by omega,
    positional_round_trip (("UPDATE t SET a=%s WHERE b=%s").data)
      [PyVal.int 1, PyVal.str (("x").data)] 2 (by decide) rfl (by omega)⟩

/-! ## Named translation over marker/segment decompositions -/

theorem isPrefixOf_self_append (p t : List Char) : p.isPrefixOf (p ++ t) = true := by
  induction p with
  | nil => simp
  | cons a as ih => simp [List.isPrefixOf, ih]

theorem nmPrefix_head (nm : List Char) (c : Char) (X : List Char)
    (h : ('%' == c) = false) : (namedMarker nm).isPrefixOf (c :: X) = false := by
  show (('%' == c) && (('(' :: (nm ++ [')', 's'])).isPrefixOf X)) = false
  rw [h, Bool.false_and]

theorem replaceAll_cons_neg (pat rep : List Char) (c : Char) (rest : List Char)
    (h : pat.isPrefixOf (c :: rest) = false) :
    replaceAll pat rep (c :: rest) = c :: replaceAll pat rep rest := by
  rw [replaceAll]
  simp [h]

theorem replaceAll_pat_front (p0 : Char) (pt rep T : List Char) :
    replaceAll (p0 :: pt) rep ((p0 :: pt) ++ T)
      = rep ++ replaceAll (p0 :: pt) rep T := by
  show replaceAll (p0 :: pt) rep (p0 :: (pt ++ T)) = rep ++ replaceAll (p0 :: pt) rep T
  rw [replaceAll]
  rw [if_pos]
  · congr 1
    rw [List.length_cons]
    simp [List.drop_left]
  · rw [show p0 :: (pt ++ T) = (p0 :: pt) ++ T from rfl, isPrefixOf_self_append]
    simp

theorem replaceAll_skip_markB (rep T : List Char) :
    replaceAll (namedMarker ['a']) rep (namedMarker ['b'] ++ T)
      = namedMarker ['b'] ++ replaceAll (namedMarker ['a']) rep T := by
  show replaceAll (namedMarker ['a']) rep ('%' :: '(' :: 'b' :: ')' :: 's' :: T)
      = '%' :: '(' :: 'b' :: ')' :: 's' :: replaceAll (namedMarker ['a']) rep T
  rw [replaceAll_cons_neg _ _ _ _ (by rfl)]
  rw [replaceAll_cons_neg _ _ _ _ (nmPrefix_head _ _ _ (by decide))]
  rw [replaceAll_cons_neg _ _ _ _ (nmPrefix_head _ _ _ (by decide))]
  rw [replaceAll_cons_neg _ _ _ _ (nmPrefix_head _ _ _ (by decide))]
  rw [replaceAll_cons_neg _ _ _ _ (nmPrefix_head _ _ _ (by decide))]

theorem replaceAll_skip_markA (rep T : List Char) :
    replaceAll (namedMarker ['b']) rep (namedMarker ['a'] ++ T)
      = namedMarker ['a'] ++ replaceAll (namedMarker ['b']) rep T := by
  show replaceAll (namedMarker ['b']) rep ('%' :: '(' :: 'a' :: ')' :: 's' :: T)
      = '%' :: '(' :: 'a' :: ')' :: 's' :: replaceAll (namedMarker ['b']) rep T
  rw [replaceAll_cons_neg _ _ _ _ (by rfl)]
  rw [replaceAll_cons_neg _ _ _ _ (nmPrefix_head _ _ _ (by decide))]
  rw [replaceAll_cons_neg _ _ _ _ (nmPrefix_head _ _ _ (by decide))]
  rw [replaceAll_cons_neg _ _ _ _ (nmPrefix_head _ _ _ (by decide))]
  rw [replaceAll_cons_neg _ _ _ _ (nmPrefix_head _ _ _ (by decide))]

theorem replaceAll_seg (nm rep : List Char) (s T : List Char) (hs : segOk s = true) :
    replaceAll (namedMarker nm) rep (s ++ T) = s ++ replaceAll (namedMarker nm) rep T := by
  induction s with
  | nil => simp
  | cons c s' ih =>
    simp only [segOk, List.all_cons, Bool.and_eq_true, Bool.not_eq_true'] at hs
    have hc : ('%' == c) = false := by
      have hne : ¬ c = '%' := by simpa using hs.1
      simp only [beq_eq_false_iff_ne, ne_eq]
      exact fun h => hne h.symm
    show replaceAll (namedMarker nm) rep (c :: (s' ++ T))
        = c :: (s' ++ replaceAll (namedMarker nm) rep T)
    rw [replaceAll_cons_neg _ _ _ _ (nmPrefix_head nm c _ hc),
      ih (by simp [segOk, hs.2])]

/-- A query built from marker-free segments and the two named markers
`%(a)s` and `%(b)s`. -/
inductive NamedTok : Type where
  | seg (s : List Char)
  | markA
  | markB
deriving DecidableEq, Repr

/-- Render one token into query text. -/
def renderTok : NamedTok → List Char
  | .seg s => s
  | .markA => namedMarker ['a']
  | .markB => namedMarker ['b']

/-- Render a token list into query text. -/
def renderToks : List NamedTok → List Char
  | [] => []
  | t :: ts => renderTok t ++ renderToks ts

/-- All segments are free of the `%` character. -/
def toksOk : List NamedTok → Bool
  | [] => true
  | .seg s :: ts => segOk s && toksOk ts
  | _ :: ts => toksOk ts

/-- Substitute `%(a)s` by `:a`. -/
def substA : NamedTok → NamedTok
  | .markA => .seg (':' :: ['a'])
  | t => t

/-- Substitute `%(b)s` by `:b`. -/
def substB : NamedTok → NamedTok
  | .markB => .seg (':' :: ['b'])
  | t => t

/-- Substitute both named markers by their rewritten placeholders. -/
def substAB : NamedTok → NamedTok
  | .markA => .seg (':' :: ['a'])
  | .markB => .seg (':' :: ['b'])
  | t => t

theorem toksOk_cons_tail (t : NamedTok) (ts : List NamedTok)
    (h : toksOk (t :: ts) = true) : toksOk ts = true := by
  cases t with
  | seg s =>
    rw [toksOk, Bool.and_eq_true] at h
    exact h.2
  | markA => exact h
  | markB => exact h

theorem toksOk_seg_head (s : List Char) (ts : List NamedTok)
    (h : toksOk (NamedTok.seg s :: ts) = true) : segOk s = true := by
  rw [toksOk, Bool.and_eq_true] at h
  exact h.1

theorem toksOk_substA (ts : List NamedTok) (h : toksOk ts = true) :
    toksOk (ts.map substA) = true := by
  induction ts with
  | nil => rfl
  | cons t ts ih =>
    have h2 := ih (toksOk_cons_tail t ts h)
    cases t with
    | seg s =>
      simp only [List.map_cons, substA, toksOk, Bool.and_eq_true]
      exact ⟨toksOk_seg_head s ts h, h2⟩
    | markA =>
      simp only [List.map_cons, substA, toksOk, Bool.and_eq_true]
      exact ⟨by decide, h2⟩
    | markB =>
      simpa [substA, toksOk] using h2

theorem map_substA_substB (ts : List NamedTok) :
    (ts.map substA).map substB = ts.map substAB := by
  induction ts with
  | nil => rfl
  | cons t ts ih =>
    cases t <;> simp [substA, substB, substAB, ih]

theorem replaceAll_markA_pass (ts : List NamedTok) (hok : toksOk ts = true) :
    replaceAll (namedMarker ['a']) (':' :: ['a']) (renderToks ts)
      = renderToks (ts.map substA) := by
  induction ts with
  | nil =>
    show replaceAll (namedMarker ['a']) (':' :: ['a']) [] = []
    rw [replaceAll]
  | cons t ts ih =>
    have hok' := toksOk_cons_tail t ts hok
    cases t with
    | seg s =>
      show replaceAll (namedMarker ['a']) (':' :: ['a']) (s ++ renderToks ts)
          = s ++ renderToks (ts.map substA)
      rw [replaceAll_seg _ _ _ _ (toksOk_seg_head s ts hok), ih hok']
    | markA =>
      show replaceAll ('%' :: ('(' :: (['a'] ++ [')', 's']))) (':' :: ['a'])
          (('%' :: ('(' :: (['a'] ++ [')', 's']))) ++ renderToks ts)
        = (':' :: ['a']) ++ renderToks (ts.map substA)
      rw [replaceAll_pat_front]
      show (':' :: ['a']) ++ replaceAll (namedMarker ['a']) (':' :: ['a']) (renderToks ts)
          = (':' :: ['a']) ++ renderToks (ts.map substA)
      rw [ih hok']
    | markB =>
      show replaceAll (namedMarker ['a']) (':' :: ['a'])
          (namedMarker ['b'] ++ renderToks ts)
        = namedMarker ['b'] ++ renderToks (ts.map substA)
      rw [replaceAll_skip_markB, ih hok']

theorem replaceAll_markB_pass (ts : List NamedTok) (hok : toksOk ts = true) :
    replaceAll (namedMarker ['b']) (':' :: ['b']) (renderToks ts)
      = renderToks (ts.map substB) := by
  induction ts with
  | nil =>
    show replaceAll (namedMarker ['b']) (':' :: ['b']) [] = []
    rw [replaceAll]
  | cons t ts ih =>
    have hok' := toksOk_cons_tail t ts hok
    cases t with
    | seg s =>
      show replaceAll (namedMarker ['b']) (':' :: ['b']) (s ++ renderToks ts)
          = s ++ renderToks (ts.map substB)
      rw [replaceAll_seg _ _ _ _ (toksOk_seg_head s ts hok), ih hok']
    | markA =>
      show replaceAll (namedMarker ['b']) (':' :: ['b'])
          (namedMarker ['a'] ++ renderToks ts)
        = namedMarker ['a'] ++ renderToks (ts.map substB)
      rw [replaceAll_skip_markA, ih hok']
    | markB =>
      show replaceAll ('%' :: ('(' :: (['b'] ++ [')', 's']))) (':' :: ['b'])
          (('%' :: ('(' :: (['b'] ++ [')', 's']))) ++ renderToks ts)
        = (':' :: ['b']) ++ renderToks (ts.map substB)
      rw [replaceAll_pat_front]
      show (':' :: ['b']) ++ replaceAll (namedMarker ['b']) (':' :: ['b']) (renderToks ts)
          = (':' :: ['b']) ++ renderToks (ts.map substB)
      rw [ih hok']

theorem noMark_markA_append (R : List Char) :
    noMark (namedMarker ['a'] ++ R) = noMark R := by
  show noMark ('%' :: '(' :: 'a' :: ')' :: 's' :: R) = noMark R
  simp [noMark, marker_isPrefixOf_two, marker_isPrefixOf_head]

theorem noMark_markB_append (R : List Char) :
    noMark (namedMarker ['b'] ++ R) = noMark R := by
  show noMark ('%' :: '(' :: 'b' :: ')' :: 's' :: R) = noMark R
  simp [noMark, marker_isPrefixOf_two, marker_isPrefixOf_head]

theorem noMark_renderToks (ts : List NamedTok) (hok : toksOk ts = true) :
    noMark (renderToks ts) = true := by
  induction ts with
  | nil => rfl
  | cons t ts ih =>
    have h2 := ih (toksOk_cons_tail t ts hok)
    cases t with
    | seg s =>
      exact noMark_append_left _ _ (toksOk_seg_head s ts hok) h2
    | markA =>
      show noMark (namedMarker ['a'] ++ renderToks ts) = true
      rw [noMark_markA_append]
      exact h2
    | markB =>
      show noMark (namedMarker ['b'] ++ renderToks ts) = true
      rw [noMark_markB_append]
      exact h2

theorem namedSearch_append_right (A B : List Char) (h : namedSearch B = true) :
    namedSearch (A ++ B) = true := by
  induction A with
  | nil => simpa using h
  | cons c A' ih =>
    show namedSearch (c :: (A' ++ B)) = true
    rw [namedSearch, ih]
    simp

theorem namedSearch_markA (R : List Char) :
    namedSearch (namedMarker ['a'] ++ R) = true := rfl

theorem namedSearch_renderToks (ts : List NamedTok) (h : NamedTok.markA ∈ ts) :
    namedSearch (renderToks ts) = true := by
  induction ts with
  | nil => simp at h
  | cons t ts ih =>
    rcases List.mem_cons.mp h with h1 | h1
    · subst h1
      exact namedSearch_markA _
    · show namedSearch (renderTok t ++ renderToks ts) = true
      exact namedSearch_append_right _ _ (ih h1)

/-- C8: for any query decomposing into `%`-free segments and the named markers
`%(a)s` and `%(b)s` (each present at least once), translating with the
argument mapping `{a: 1, b: "x"}` replaces every occurrence of each marker by
`:a` / `:b` respectively and produces exactly the two encoded parameters
`{name: a, value: {longValue: 1}}` and `{name: b, value: {stringValue: x}}`. -/
theorem named_round_trip (ts : List NamedTok) (hok : toksOk ts = true)
    (hA : NamedTok.markA ∈ ts) (hB : NamedTok.markB ∈ ts) :
    convert_query_and_query_args_for_data_api (renderToks ts)
        (QueryArgs.named [(['a'], PyVal.int 1), (['b'], PyVal.str ['x'])])
      = Except.ok (some (renderToks (ts.map substAB),
          [{ name := ['a'], value := { tag := ("longValue").data, val := PyVal.int 1 },
             typeHint := Option.none },
           { name := ['b'], value := { tag := ("stringValue").data, val := PyVal.str ['x'] },
             typeHint := Option.none }])) := by
  have hno : hasSub marker (renderToks ts) = false := by
    rw [hasSub_marker_eq_noMark, noMark_renderToks ts hok]
    rfl
  have hns : namedSearch (renderToks ts) = true := namedSearch_renderToks ts hA
  rw [convert_query_and_query_args_for_data_api, if_neg (by simp [hno]), if_pos hns]
  have h1 : convert_query_and_dict_query_args (renderToks ts)
      [(['a'], PyVal.int 1), (['b'], PyVal.str ['x'])]
    = (renderToks (ts.map substAB),
        [map_argument_pair_to_data_api_arg ['a'] (PyVal.int 1),
         map_argument_pair_to_data_api_arg ['b'] (PyVal.str ['x'])]) := by
    show (replaceAll (namedMarker ['b']) (':' :: ['b'])
        (replaceAll (namedMarker ['a']) (':' :: ['a']) (renderToks ts)),
        ([] ++ [map_argument_pair_to_data_api_arg ['a'] (PyVal.int 1)])
          ++ [map_argument_pair_to_data_api_arg ['b'] (PyVal.str ['x'])]) = _
    rw [replaceAll_markA_pass ts hok,
      replaceAll_markB_pass (ts.map substA) (toksOk_substA ts hok),
      map_substA_substB ts]
    simp
  rw [h1]
  rfl

/-- C8 witness: the theorem applied to the concrete query
`UPDATE t SET x=%(a)s WHERE y=%(b)s`. -/
theorem named_round_trip_witness :
    toksOk [NamedTok.seg (("UPDATE t SET x=").data), NamedTok.markA,
      NamedTok.seg ((" WHERE y=").data), NamedTok.markB] = true ∧
    NamedTok.markA ∈ [NamedTok.seg (("UPDATE t SET x=").data), NamedTok.markA,
      NamedTok.seg ((" WHERE y=").data), NamedTok.markB] ∧
    NamedTok.markB ∈ [NamedTok.seg (("UPDATE t SET x=").data), NamedTok.markA,
      NamedTok.seg ((" WHERE y=").data), NamedTok.markB] ∧
    convert_query_and_query_args_for_data_api
        (renderToks [NamedTok.seg (("UPDATE t SET x=").data), NamedTok.markA,
          NamedTok.seg ((" WHERE y=").data), NamedTok.markB])
        (QueryArgs.named [(['a'], PyVal.int 1), (['b'], PyVal.str ['x'])])
      = Except.ok (some (renderToks
          ([NamedTok.seg (("UPDATE t SET x=").data), NamedTok.markA,
            NamedTok.seg ((" WHERE y=").data), NamedTok.markB].map substAB),
          [{ name := ['a'], value := { tag := ("longValue").data, val := PyVal.int 1 },
             typeHint := Option.none },
           { name := ['b'], value := { tag := ("stringValue").data, val := PyVal.str ['x'] },
             typeHint := Option.none }])) :=
  ⟨by decide, by decide, by decide,
    named_round_trip [NamedTok.seg (("UPDATE t SET x=").data), NamedTok.markA,
      NamedTok.seg ((" WHERE y=").data), NamedTok.markB] (by decide) (by decide) (by decide)⟩

/-! ## The Data API response model and the result decoder -/

/-- One column-metadata entry `{label: ...}`. -/
structure ColumnMeta : Type where
  label : List Char
deriving DecidableEq, Repr

/-- One per-row batch result `{generatedFields: [...]}`. -/
structure UpdateResult : Type where
  generatedFields : List TaggedValue
deriving DecidableEq, Repr

/-- A raw Data API response dictionary.  Keys the code reads with `.get`, or
that may be absent for some statement kinds, are `Option` (absence = the key
is missing); `httpStatusCode` abbreviates
`ResponseMetadata -> HTTPStatusCode`, always present on a boto response. -/
structure ApiResponse : Type where
  columnMetadata : Option (List ColumnMeta)
  records : Option (List (List TaggedValue))
  httpStatusCode : Nat
  numberOfRecordsUpdated : Option Int
  generatedFields : Option (List TaggedValue)
  updateResults : Option (List UpdateResult)
deriving DecidableEq, Repr

/-- A decoded row: `dict(zip(column_labels, row_values))`, modelled as the
zipped association list (labels are assumed unique per statement). -/
def dictZip (labels : List (List Char)) (vals : List (Option PyVal)) :
    List (List Char × Option PyVal) :=
  labels.zip vals

/-- What `data_api_response_to_pymysql_response` returns besides Python's
`None`: a single formatted row, or a list of formatted rows. -/
inductive PyResult : Type where
  | row (r : List (List Char × Option PyVal))
  | rows (rs : List (List (List Char × Option PyVal)))
deriving DecidableEq, Repr

/-- Truthiness of the `.get('columnMetadata')` result. -/
def truthyMeta : Option (List ColumnMeta) → Bool
  | Option.none => false
  | some l => !l.isEmpty

/-- Decoder `data_api_response_to_pymysql_response`: decode a stored response in fetch
mode `'one'` or `'all'`.  The response's record list is mutated (first row
popped, or drained), so the updated response is returned alongside the
result.  `Except.error` marks the paths where the Python code would raise
(iterating absent metadata, indexing an absent `records` key). -/
def data_api_response_to_pymysql_response (data_api_response : ApiResponse)
    (fetch_mode : List Char) :
    Except Unit (Option PyResult × ApiResponse) :=
  if ¬ truthyMeta data_api_response.columnMetadata = true ∧
      data_api_response.httpStatusCode = 200 then
    Except.ok (Option.none, data_api_response)
  else
    match data_api_response.columnMetadata with
    | Option.none => Except.error ()
    | some meta =>
      let column_labels := meta.map (fun column => column.label)
      match data_api_response.records with
      | Option.none => Except.error ()
      | some records =>
        if records.length = 0 ∧ fetch_mode = ("one").data then
          Except.ok (Option.none, data_api_response)
        else if records.length = 0 ∧ fetch_mode = ("all").data then
          Except.ok (some (PyResult.rows []), data_api_response)
        else if fetch_mode = ("one").data then
          match records with
          | [] => Except.error ()
          | row :: rest =>
            let row_values := row.map decodeCell
            Except.ok (some (PyResult.row (dictZip column_labels row_values)),
              { data_api_response with records := some rest })
        else if fetch_mode = ("all").data then
          let formatted_rows := records.map
            (fun row => dictZip column_labels (row.map decodeCell))
          Except.ok (some (PyResult.rows formatted_rows),
            { data_api_response with records := some [] })
        else
          Except.ok (Option.none, data_api_response)

/-- The mutable per-session state of `RdsDataApiClient`. -/
structure SessionState : Type where
  data_api_response : Option ApiResponse
  number_of_affected_rows : Option Int
  returning_ids : List PyVal
  lastrowid : Option PyVal
deriving DecidableEq, Repr

/-- Python `if query_args:` — `None` and empty containers are falsy. -/
def truthyArgs : Option QueryArgs → Bool
  | Option.none => false
  | some (.positional l) => !l.isEmpty
  | some (.named d) => !d.isEmpty

/-- Final statements of `execute`: store the affected-row count from
`numberOfRecordsUpdated` (raising if the key is absent) and return it. -/
def executeFinish (st : SessionState) (resp : ApiResponse) :
    SessionState × Except Unit Int :=
  match resp.numberOfRecordsUpdated with
  | Option.none => (st, Except.error ())
  | some n => ({ st with number_of_affected_rows := some n }, Except.ok n)

/-- The translation phase of `execute`: when the arguments are truthy the
translation result is destructured (raising on a `None` result or a raised
translation), otherwise no translation happens. -/
def executeConv (query : List Char) (query_args : Option QueryArgs) :
    Except Unit Unit :=
  if truthyArgs query_args = true then
    match query_args with
    | Option.none => Except.ok ()
    | some qa =>
      match convert_query_and_query_args_for_data_api query qa with
      | Except.error _ => Except.error ()
      | Except.ok Option.none => Except.error ()
      | Except.ok (some _) => Except.ok ()
  else Except.ok ()

/-- The `lastrowid` phase of `execute`: when the query text contains the
case-insensitive substring `INSERT` and the response carries at least one
generated field, store that field's `longValue` as `lastrowid` (raising when
the `generatedFields` key or the `longValue` tag is absent), then finish. -/
def executeInsertStep (st1 : SessionState) (query : List Char) (resp : ApiResponse) :
    SessionState × Except Unit Int :=
  if hasSub (("INSERT").data) (query.map Char.toUpper) = true then
    match resp.generatedFields with
    | Option.none => (st1, Except.error ())
    | some gfs =>
      if gfs.length > 0 then
        match gfs with
        | [] => (st1, Except.error ())
        | g0 :: _ =>
          if g0.tag = ("longValue").data then
            executeFinish { st1 with lastrowid := some g0.val } resp
          else (st1, Except.error ())
      else executeFinish st1 resp
  else executeFinish st1 resp

/-- Facade `execute`: translate the arguments when present, store the response, record
`lastrowid` for INSERT statements that produced a generated field, then record
and return the affected-row count.  The remote call itself is abstracted: its
response is the `resp` argument.  The returned state is the client state after
the call, including the partial mutations preceding a raise. -/
def execute (st : SessionState) (query : List Char) (query_args : Option QueryArgs)
    (resp : ApiResponse) : SessionState × Except Unit Int :=
  match executeConv query query_args with
  | Except.error _ => (st, Except.error ())
  | Except.ok _ =>
    executeInsertStep { st with data_api_response := some resp } query resp

/-- The translation loop of `executemany`: each argument set is translated
against the original query; the last rewritten query is kept.  Unpacking a
`None` translation result raises. -/
def executemany_convert (query : List Char) (query_args_list : List QueryArgs) :
    Except Unit (List Char × List (List EncodedParameter)) :=
  query_args_list.foldlM
    (fun acc qa =>
      match convert_query_and_query_args_for_data_api query qa with
      | Except.error _ => Except.error ()
      | Except.ok Option.none => Except.error ()
      | Except.ok (some (nq, na)) => Except.ok (nq, acc.2 ++ [na]))
    (query, [])

/-- Facade `executemany`: translate every argument set, store the response, then for
each per-row result append its first generated field's `longValue` to the
accumulated id list when that `.get('longValue')` is truthy, record the number
of per-row results as the affected-row count and return it. -/
def executemany (st : SessionState) (query : List Char)
    (query_args_list : List QueryArgs) (resp : ApiResponse) :
    SessionState × Except Unit Int :=
  match executemany_convert query query_args_list with
  | Except.error _ => (st, Except.error ())
  | Except.ok _ =>
    let st1 := { st with data_api_response := some resp }
    match resp.updateResults with
    | Option.none => (st1, Except.error ())
    | some urs =>
      let new_ids := urs.foldl
        (fun acc result =>
          match result.generatedFields with
          | [] => acc
          | g0 :: _ =>
            if truthyOpt (tvGet g0 (("longValue").data)) = true then acc ++ [g0.val]
            else acc)
        st.returning_ids
      ({ st1 with returning_ids := new_ids, number_of_affected_rows := some (urs.length : Int) },
        Except.ok (urs.length : Int))

/-- Facade `fetchone`: decode the stored response in mode `'one'` (raises when no
response is stored). -/
def fetchone (st : SessionState) : Except Unit (Option PyResult × SessionState) :=
  match st.data_api_response with
  | Option.none => Except.error ()
  | some resp =>
    match data_api_response_to_pymysql_response resp (("one").data) with
    | Except.error e => Except.error e
    | Except.ok (r, resp2) =>
      Except.ok (r, { st with data_api_response := some resp2 })

/-- Facade `fetchall`: decode the stored response in mode `'all'`. -/
def fetchall (st : SessionState) : Except Unit (Option PyResult × SessionState) :=
  match st.data_api_response with
  | Option.none => Except.error ()
  | some resp =>
    match data_api_response_to_pymysql_response resp (("all").data) with
    | Except.error e => Except.error e
    | Except.ok (r, resp2) =>
      Except.ok (r, { st with data_api_response := some resp2 })

/-! ## Claims about `execute` -/

theorem executeFinish_lastrowid (st : SessionState) (resp : ApiResponse) :
    (executeFinish st resp).1.lastrowid = st.lastrowid := by
  rw [executeFinish]
  cases hn : resp.numberOfRecordsUpdated with
  | none => rfl
  | some n => rfl

theorem executeInsertStep_frame (st1 : SessionState) (query : List Char)
    (resp : ApiResponse)
    (h : hasSub (("INSERT").data) (query.map Char.toUpper) = false ∨
      resp.generatedFields = some []) :
    (executeInsertStep st1 query resp).1.lastrowid = st1.lastrowid := by
  rcases h with h | h
  · rw [executeInsertStep, if_neg (by simp [h])]
    exact executeFinish_lastrowid st1 resp
  · by_cases hins : hasSub (("INSERT").data) (query.map Char.toUpper) = true
    · rw [executeInsertStep, if_pos hins, h]
      show (if ([] : List TaggedValue).length > 0 then _ else executeFinish st1 resp).1.lastrowid
          = st1.lastrowid
      rw [if_neg (by simp)]
      exact executeFinish_lastrowid st1 resp
    · rw [executeInsertStep, if_neg hins]
      exact executeFinish_lastrowid st1 resp

theorem executeInsertStep_mutation (st1 : SessionState) (query : List Char)
    (resp : ApiResponse)
    (h : (executeInsertStep st1 query resp).1.lastrowid ≠ st1.lastrowid) :
    hasSub (("INSERT").data) (query.map Char.toUpper) = true ∧
    ∃ g gs, resp.generatedFields = some (g :: gs) := by
  by_cases hins : hasSub (("INSERT").data) (query.map Char.toUpper) = true
  · refine ⟨hins, ?_⟩
    cases hgf : resp.generatedFields with
    | none =>
      rw [executeInsertStep, if_pos hins, hgf] at h
      exact absurd rfl h
    | some gfs =>
      cases gfs with
      | nil =>
        exact absurd (executeInsertStep_frame st1 query resp (Or.inr hgf)) h
      | cons g gs => exact ⟨g, gs, rfl⟩
  · exact absurd (executeInsertStep_frame st1 query resp
      (Or.inl (by simpa using hins))) h

/-- C9: `execute` leaves `lastrowid` unchanged whenever the query text does not
contain the case-insensitive substring `INSERT`, and also when it does but the
response's generated-field list is empty; `lastrowid` can change only when the
query contains `INSERT` and the response carries at least one generated
field. -/
theorem execute_lastrowid_frame (st : SessionState) (query : List Char)
    (query_args : Option QueryArgs) (resp : ApiResponse) :
    ((hasSub (("INSERT").data) (query.map Char.toUpper) = false ∨
        resp.generatedFields = some []) →
      (execute st query query_args resp).1.lastrowid = st.lastrowid) ∧
    ((execute st query query_args resp).1.lastrowid ≠ st.lastrowid →
      hasSub (("INSERT").data) (query.map Char.toUpper) = true ∧
      ∃ g gs, resp.generatedFields = some (g :: gs)) := by
  rw [execute]
  cases hconv : executeConv query query_args with
  | error e => exact ⟨fun _ => rfl, fun hne => absurd rfl hne⟩
  | ok u =>
    constructor
    · intro h
      exact executeInsertStep_frame _ query resp h
    · intro h
      exact executeInsertStep_mutation _ query resp h

/-- C9 witness: a non-INSERT query leaves a previously recorded `lastrowid`
untouched. -/
theorem execute_lastrowid_frame_witness :
    (execute
        { data_api_response := Option.none, number_of_affected_rows := Option.none, returning_ids := [], lastrowid := some (PyVal.int 7) }
        (("SELECT x FROM t").data) Option.none
        { columnMetadata := Option.none, records := Option.none, httpStatusCode := 200, numberOfRecordsUpdated := some 0, generatedFields := Option.none, updateResults := Option.none }).1.lastrowid
      = some (PyVal.int 7) :=
  (execute_lastrowid_frame
    { data_api_response := Option.none, number_of_affected_rows := Option.none, returning_ids := [], lastrowid := some (PyVal.int 7) }
    (("SELECT x FROM t").data) Option.none
    { columnMetadata := Option.none, records := Option.none, httpStatusCode := 200, numberOfRecordsUpdated := some 0, generatedFields := Option.none, updateResults := Option.none }).1
    (Or.inl (by decide))

/-- C2 (amended): when the query matches neither the positional `%s` marker nor
the named-marker search while arguments were supplied, the translation
function falls off its end and returns Python's `None` — not a
(query, empty-list) pair — and the enclosing `execute` raises a type error
unpacking it, leaving the session state unchanged. -/
theorem no_marker_translation (query : List Char) (qa : QueryArgs)
    (st : SessionState) (resp : ApiResponse)
    (h1 : hasSub marker query = false) (h2 : namedSearch query = false)
    (h3 : truthyArgs (some qa) = true) :
    convert_query_and_query_args_for_data_api query qa = Except.ok Option.none ∧
    execute st query (some qa) resp = (st, Except.error ()) := by
  have hc : convert_query_and_query_args_for_data_api query qa
      = Except.ok Option.none := by
    rw [convert_query_and_query_args_for_data_api.eq_def, if_neg (by simp [h1]),
      if_neg (by simp [h2])]
  refine ⟨hc, ?_⟩
  rw [execute, executeConv, if_pos h3]
  rw [hc]

/-- C2 counterexample: with the marker-free query `SELECT 1 FROM t` and a
nonempty positional argument list the translation returns Python's `None`,
not the claimed (query, empty-parameter-list) pair, and `execute` raises. -/
theorem no_marker_translation_counterexample :
    convert_query_and_query_args_for_data_api (("SELECT 1 FROM t").data)
        (QueryArgs.positional [PyVal.int 1]) = Except.ok Option.none ∧
    convert_query_and_query_args_for_data_api (("SELECT 1 FROM t").data)
        (QueryArgs.positional [PyVal.int 1])
      ≠ Except.ok (some ((("SELECT 1 FROM t").data), [])) ∧
    (execute
        { data_api_response := Option.none, number_of_affected_rows := Option.none, returning_ids := [], lastrowid := Option.none }
        (("SELECT 1 FROM t").data)
        (some (QueryArgs.positional [PyVal.int 1]))
        { columnMetadata := Option.none, records := Option.none, httpStatusCode := 200, numberOfRecordsUpdated := some 0, generatedFields := Option.none, updateResults := Option.none }).2
      = Except.error () := by
  refine ⟨rfl, ?_, rfl⟩
  intro h
  have h0 : convert_query_and_query_args_for_data_api (("SELECT 1 FROM t").data)
      (QueryArgs.positional [PyVal.int 1]) = Except.ok Option.none := rfl
  have h2 := h0.symm.trans h
  simp at h2

/-- C2 witness: the amended theorem applied at the counterexample's input. -/
theorem no_marker_translation_witness :
    hasSub marker (("SELECT 1 FROM t").data) = false ∧
    namedSearch (("SELECT 1 FROM t").data) = false ∧
    truthyArgs (some (QueryArgs.positional [PyVal.int 1])) = true ∧
    (convert_query_and_query_args_for_data_api (("SELECT 1 FROM t").data)
        (QueryArgs.positional [PyVal.int 1]) = Except.ok Option.none ∧
      execute
        { data_api_response := Option.none, number_of_affected_rows := Option.none, returning_ids := [], lastrowid := Option.none }
        (("SELECT 1 FROM t").data)
        (some (QueryArgs.positional [PyVal.int 1]))
        { columnMetadata := Option.none, records := Option.none, httpStatusCode := 200, numberOfRecordsUpdated := some 0, generatedFields := Option.none, updateResults := Option.none }
      = ({ data_api_response := Option.none, number_of_affected_rows := Option.none, returning_ids := [], lastrowid := Option.none },
          Except.error ())) :=
  ⟨by decide, by decide, by decide,
    no_marker_translation (("SELECT 1 FROM t").data)
      (QueryArgs.positional [PyVal.int 1])
      { data_api_response := Option.none, number_of_affected_rows := Option.none, returning_ids := [], lastrowid := Option.none }
      { columnMetadata := Option.none, records := Option.none, httpStatusCode := 200, numberOfRecordsUpdated := some 0, generatedFields := Option.none, updateResults := Option.none }
      (by decide) (by decide) (by decide)⟩

/-! ## Claims about the result decoder -/

/-- C4 (amended): on a stored response whose `columnMetadata` is absent or
empty and whose status is 200, `fetchone` and `fetchall` both return Python's
`None` without error and leave the state unchanged.  (The claim's
"fetchAll returns the empty sequence" fails: the early return in the decoder
yields `None` for both modes; see the counterexample.) -/
theorem decode_non_result (st : SessionState) (resp : ApiResponse)
    (hst : st.data_api_response = some resp)
    (hmeta : resp.columnMetadata = Option.none ∨ resp.columnMetadata = some [])
    (hstatus : resp.httpStatusCode = 200) :
    fetchone st = Except.ok (Option.none, st) ∧
    fetchall st = Except.ok (Option.none, st) := by
  have hdec : ∀ mode, data_api_response_to_pymysql_response resp mode
      = Except.ok (Option.none, resp) := by
    intro mode
    rw [data_api_response_to_pymysql_response,
      if_pos ⟨by rcases hmeta with h | h <;> simp [truthyMeta, h], hstatus⟩]
  have hself : { st with data_api_response := some resp } = st := by
    cases st
    simp_all
  constructor
  · rw [fetchone, hst]
    simp only [hdec, hself]
  · rw [fetchall, hst]
    simp only [hdec, hself]

/-- C4 counterexample: on a concrete successful non-result response `fetchall`
returns Python's `None`, not the empty row sequence the claim requires. -/
theorem decode_non_result_counterexample :
    fetchall
        { data_api_response := some { columnMetadata := Option.none, records := some [], httpStatusCode := 200, numberOfRecordsUpdated := some 1, generatedFields := Option.none, updateResults := Option.none }, number_of_affected_rows := some 1, returning_ids := [], lastrowid := Option.none }
      = Except.ok (Option.none,
          { data_api_response := some { columnMetadata := Option.none, records := some [], httpStatusCode := 200, numberOfRecordsUpdated := some 1, generatedFields := Option.none, updateResults := Option.none }, number_of_affected_rows := some 1, returning_ids := [], lastrowid := Option.none }) ∧
    (Except.ok ((Option.none : Option PyResult),
        { data_api_response := some { columnMetadata := Option.none, records := some [], httpStatusCode := 200, numberOfRecordsUpdated := some 1, generatedFields := Option.none, updateResults := Option.none }, number_of_affected_rows := some 1, returning_ids := [], lastrowid := Option.none })
      : Except Unit (Option PyResult × SessionState))
      ≠ Except.ok (some (PyResult.rows []),
          { data_api_response := some { columnMetadata := Option.none, records := some [], httpStatusCode := 200, numberOfRecordsUpdated := some 1, generatedFields := Option.none, updateResults := Option.none }, number_of_affected_rows := some 1, returning_ids := [], lastrowid := Option.none }) := by
  refine ⟨rfl, ?_⟩
  intro h
  simp at h

/-- C4 witness: the amended theorem applied at the counterexample's state. -/
theorem decode_non_result_witness :
    (fetchone
        { data_api_response := some { columnMetadata := Option.none, records := some [], httpStatusCode := 200, numberOfRecordsUpdated := some 1, generatedFields := Option.none, updateResults := Option.none }, number_of_affected_rows := some 1, returning_ids := [], lastrowid := Option.none }
      = Except.ok (Option.none,
          { data_api_response := some { columnMetadata := Option.none, records := some [], httpStatusCode := 200, numberOfRecordsUpdated := some 1, generatedFields := Option.none, updateResults := Option.none }, number_of_affected_rows := some 1, returning_ids := [], lastrowid := Option.none })) ∧
    (fetchall
        { data_api_response := some { columnMetadata := Option.none, records := some [], httpStatusCode := 200, numberOfRecordsUpdated := some 1, generatedFields := Option.none, updateResults := Option.none }, number_of_affected_rows := some 1, returning_ids := [], lastrowid := Option.none }
      = Except.ok (Option.none,
          { data_api_response := some { columnMetadata := Option.none, records := some [], httpStatusCode := 200, numberOfRecordsUpdated := some 1, generatedFields := Option.none, updateResults := Option.none }, number_of_affected_rows := some 1, returning_ids := [], lastrowid := Option.none })) :=
  decode_non_result
    { data_api_response := some { columnMetadata := Option.none, records := some [], httpStatusCode := 200, numberOfRecordsUpdated := some 1, generatedFields := Option.none, updateResults := Option.none }, number_of_affected_rows := some 1, returning_ids := [], lastrowid := Option.none }
    { columnMetadata := Option.none, records := some [], httpStatusCode := 200, numberOfRecordsUpdated := some 1, generatedFields := Option.none, updateResults := Option.none }
    rfl (Or.inl rfl) rfl

theorem decode_one_nonempty (resp : ApiResponse) (ms : List ColumnMeta)
    (r : List TaggedValue) (rs : List (List TaggedValue))
    (hmeta : resp.columnMetadata = some ms) (hms : ms ≠ [])
    (hrec : resp.records = some (r :: rs)) :
    data_api_response_to_pymysql_response resp (("one").data)
      = Except.ok (some (PyResult.row
            (dictZip (ms.map (fun column => column.label)) (r.map decodeCell))),
          { resp with records := some rs }) := by
  have htm : truthyMeta resp.columnMetadata = true := by
    rw [hmeta]
    cases ms with
    | nil => exact absurd rfl hms
    | cons m ms' => simp [truthyMeta]
  rw [data_api_response_to_pymysql_response, if_neg (by simp [htm]), hmeta]
  dsimp only
  rw [hrec]
  dsimp only
  rw [if_neg (by simp), if_neg (by simp), if_pos rfl]

theorem decode_all_nonempty (resp : ApiResponse) (ms : List ColumnMeta)
    (r : List TaggedValue) (rs : List (List TaggedValue))
    (hmeta : resp.columnMetadata = some ms) (hms : ms ≠ [])
    (hrec : resp.records = some (r :: rs)) :
    data_api_response_to_pymysql_response resp (("all").data)
      = Except.ok (some (PyResult.rows ((r :: rs).map
            (fun row => dictZip (ms.map (fun column => column.label))
              (row.map decodeCell)))),
          { resp with records := some [] }) := by
  have htm : truthyMeta resp.columnMetadata = true := by
    rw [hmeta]
    cases ms with
    | nil => exact absurd rfl hms
    | cons m ms' => simp [truthyMeta]
  rw [data_api_response_to_pymysql_response, if_neg (by simp [htm]), hmeta]
  dsimp only
  rw [hrec]
  dsimp only
  rw [if_neg (by simp), if_neg (by simp), if_neg (by decide), if_pos rfl]

/-- C7: on a stored response with non-empty column metadata and non-empty
records, `fetchone` decodes exactly the first row and removes it from the
stored response (so later fetches no longer see it), while `fetchall` decodes
every remaining row in order and drains the stored record list to empty. -/
theorem destructive_single_use_decode (st : SessionState) (resp : ApiResponse)
    (ms : List ColumnMeta) (r : List TaggedValue) (rs : List (List TaggedValue))
    (hst : st.data_api_response = some resp)
    (hmeta : resp.columnMetadata = some ms) (hms : ms ≠ [])
    (hrec : resp.records = some (r :: rs)) :
    fetchone st = Except.ok (some (PyResult.row
        (dictZip (ms.map (fun column => column.label)) (r.map decodeCell))),
      { st with data_api_response := some { resp with records := some rs } }) ∧
    fetchall st = Except.ok (some (PyResult.rows ((r :: rs).map
        (fun row => dictZip (ms.map (fun column => column.label))
          (row.map decodeCell)))),
      { st with data_api_response := some { resp with records := some [] } }) := by
  constructor
  · rw [fetchone, hst]
    simp only [decode_one_nonempty resp ms r rs hmeta hms hrec]
  · rw [fetchall, hst]
    simp only [decode_all_nonempty resp ms r rs hmeta hms hrec]

/-- C7 witness: the theorem applied to the concrete response with columns
`id`, `name` and the single row `(1, "Ann")`, whose decoded form is also
computed explicitly. -/
theorem destructive_single_use_decode_witness :
    (fetchone
        { data_api_response := some { columnMetadata := some [{ label := ("id").data }, { label := ("name").data }], records := some [[{ tag := ("longValue").data, val := PyVal.int 1 }, { tag := ("stringValue").data, val := PyVal.str (("Ann").data) }]], httpStatusCode := 200, numberOfRecordsUpdated := some 0, generatedFields := Option.none, updateResults := Option.none }, number_of_affected_rows := some 0, returning_ids := [], lastrowid := Option.none }
      = Except.ok (some (PyResult.row
          (dictZip (([{ label := ("id").data }, { label := ("name").data }] : List ColumnMeta).map (fun column => column.label))
            (([{ tag := ("longValue").data, val := PyVal.int 1 }, { tag := ("stringValue").data, val := PyVal.str (("Ann").data) }] : List TaggedValue).map decodeCell))),
        { data_api_response := some { columnMetadata := some [{ label := ("id").data }, { label := ("name").data }], records := some ([] : List (List TaggedValue)), httpStatusCode := 200, numberOfRecordsUpdated := some 0, generatedFields := Option.none, updateResults := Option.none }, number_of_affected_rows := some 0, returning_ids := [], lastrowid := Option.none })) ∧
    dictZip (([{ label := ("id").data }, { label := ("name").data }] : List ColumnMeta).map (fun column => column.label))
        (([{ tag := ("longValue").data, val := PyVal.int 1 }, { tag := ("stringValue").data, val := PyVal.str (("Ann").data) }] : List TaggedValue).map decodeCell)
      = [((("id").data), some (PyVal.int 1)), ((("name").data), some (PyVal.str (("Ann").data)))] :=
  ⟨(destructive_single_use_decode
      { data_api_response := some { columnMetadata := some [{ label := ("id").data }, { label := ("name").data }], records := some [[{ tag := ("longValue").data, val := PyVal.int 1 }, { tag := ("stringValue").data, val := PyVal.str (("Ann").data) }]], httpStatusCode := 200, numberOfRecordsUpdated := some 0, generatedFields := Option.none, updateResults := Option.none }, number_of_affected_rows := some 0, returning_ids := [], lastrowid := Option.none }
      { columnMetadata := some [{ label := ("id").data }, { label := ("name").data }], records := some [[{ tag := ("longValue").data, val := PyVal.int 1 }, { tag := ("stringValue").data, val := PyVal.str (("Ann").data) }]], httpStatusCode := 200, numberOfRecordsUpdated := some 0, generatedFields := Option.none, updateResults := Option.none }
      [{ label := ("id").data }, { label := ("name").data }]
      [{ tag := ("longValue").data, val := PyVal.int 1 }, { tag := ("stringValue").data, val := PyVal.str (("Ann").data) }]
      [] rfl rfl (by decide) rfl).1,
    by decide⟩

/-! ## Claims about `executemany` -/

/-- The generated-id filter applied to one per-row result: the value appended
to `returning_ids`, if any.  A result contributes exactly when its
generated-fields list is non-empty and the first field's `longValue` entry
exists and is truthy. -/
def genIdOf (result : UpdateResult) : Option PyVal :=
  match result.generatedFields with
  | [] => Option.none
  | g0 :: _ =>
      if truthyOpt (tvGet g0 (("longValue").data)) = true then some g0.val
      else Option.none

theorem genId_foldl (urs : List UpdateResult) (acc : List PyVal) :
    urs.foldl
        (fun acc result =>
          match result.generatedFields with
          | [] => acc
          | g0 :: _ =>
            if truthyOpt (tvGet g0 (("longValue").data)) = true then acc ++ [g0.val]
            else acc)
        acc
      = acc ++ urs.filterMap genIdOf := by
  induction urs generalizing acc with
  | nil => simp
  | cons ur urs ih =>
    rw [List.foldl_cons, List.filterMap_cons]
    cases hgf : ur.generatedFields with
    | nil =>
      simp only [genIdOf, hgf]
      rw [ih]
    | cons g0 gs =>
      simp only [genIdOf, hgf]
      by_cases ht : truthyOpt (tvGet g0 (("longValue").data)) = true
      · simp only [ht, if_pos]
        rw [ih]
        simp
      · simp only [ht, if_neg, if_false]
        rw [ih]
        simp [ht]

/-- C5 (amended): after one `executemany` call, a per-row result contributes
its first generated field's stored value to the accumulated generated-id list
exactly when its generated-fields list is non-empty and the first field's
`longValue` entry is present and truthy — a first field under any other tag is
skipped even when its unwrapped value is truthy.  `executemany` returns the
number of per-row results and records it as the affected-row count. -/
theorem executemany_generated_id_filter (st : SessionState) (query : List Char)
    (query_args_list : List QueryArgs) (resp : ApiResponse)
    (urs : List UpdateResult) (conv : List Char × List (List EncodedParameter))
    (hconv : executemany_convert query query_args_list = Except.ok conv)
    (hur : resp.updateResults = some urs) :
    (executemany st query query_args_list resp).1.returning_ids
        = st.returning_ids ++ urs.filterMap genIdOf ∧
    (executemany st query query_args_list resp).2 = Except.ok (urs.length : Int) ∧
    (executemany st query query_args_list resp).1.number_of_affected_rows
        = some (urs.length : Int) := by
  rw [executemany, hconv]
  dsimp only
  rw [hur]
  dsimp only
  rw [genId_foldl]
  exact ⟨rfl, rfl, rfl⟩

/-- C5 counterexample: a per-row result whose first generated field is
`{stringValue: "x"}` has a non-empty generated-fields list and a truthy
unwrapped value, yet nothing is appended — refuting the claim's
"iff the first field's unwrapped value is truthy". -/
theorem executemany_generated_id_filter_counterexample :
    pyTruthy (PyVal.str (("x").data)) = true ∧
    (executemany
        { data_api_response := Option.none, number_of_affected_rows := Option.none, returning_ids := [], lastrowid := Option.none }
        (("INSERT INTO t VALUES (1)").data) []
        { columnMetadata := Option.none, records := Option.none, httpStatusCode := 200, numberOfRecordsUpdated := Option.none, generatedFields := Option.none, updateResults := some [{ generatedFields := [{ tag := ("stringValue").data, val := PyVal.str (("x").data) }] }] }).1.returning_ids
      = [] ∧
    ([] : List PyVal) ≠ [PyVal.str (("x").data)] := by
  refine ⟨rfl, rfl, ?_⟩
  intro h
  simp at h

/-- C5 witness: the amended theorem applied to the batch results
`[{generatedFields:[{longValue:0}]}, {generatedFields:[{longValue:5}]},
{generatedFields:[]}]` from an empty accumulator: the accumulated list is
`[5]` and the call returns 3. -/
theorem executemany_generated_id_filter_witness :
    executemany_convert (("INSERT INTO t VALUES (1)").data) []
      = Except.ok ((("INSERT INTO t VALUES (1)").data), []) ∧
    ((executemany
        { data_api_response := Option.none, number_of_affected_rows := Option.none, returning_ids := [], lastrowid := Option.none }
        (("INSERT INTO t VALUES (1)").data) []
        { columnMetadata := Option.none, records := Option.none, httpStatusCode := 200, numberOfRecordsUpdated := Option.none, generatedFields := Option.none, updateResults := some [{ generatedFields := [{ tag := ("longValue").data, val := PyVal.int 0 }] }, { generatedFields := [{ tag := ("longValue").data, val := PyVal.int 5 }] }, { generatedFields := [] }] }).1.returning_ids
      = ([] : List PyVal) ++ ([{ generatedFields := [{ tag := ("longValue").data, val := PyVal.int 0 }] }, { generatedFields := [{ tag := ("longValue").data, val := PyVal.int 5 }] }, { generatedFields := [] }] : List UpdateResult).filterMap genIdOf ∧
    (executemany
        { data_api_response := Option.none, number_of_affected_rows := Option.none, returning_ids := [], lastrowid := Option.none }
        (("INSERT INTO t VALUES (1)").data) []
        { columnMetadata := Option.none, records := Option.none, httpStatusCode := 200, numberOfRecordsUpdated := Option.none, generatedFields := Option.none, updateResults := some [{ generatedFields := [{ tag := ("longValue").data, val := PyVal.int 0 }] }, { generatedFields := [{ tag := ("longValue").data, val := PyVal.int 5 }] }, { generatedFields := [] }] }).2
      = Except.ok ((3 : Nat) : Int) ∧
    (executemany
        { data_api_response := Option.none, number_of_affected_rows := Option.none, returning_ids := [], lastrowid := Option.none }
        (("INSERT INTO t VALUES (1)").data) []
        { columnMetadata := Option.none, records := Option.none, httpStatusCode := 200, numberOfRecordsUpdated := Option.none, generatedFields := Option.none, updateResults := some [{ generatedFields := [{ tag := ("longValue").data, val := PyVal.int 0 }] }, { generatedFields := [{ tag := ("longValue").data, val := PyVal.int 5 }] }, { generatedFields := [] }] }).1.number_of_affected_rows
      = some ((3 : Nat) : Int)) ∧
    ([] : List PyVal) ++ ([{ generatedFields := [{ tag := ("longValue").data, val := PyVal.int 0 }] }, { generatedFields := [{ tag := ("longValue").data, val := PyVal.int 5 }] }, { generatedFields := [] }] : List UpdateResult).filterMap genIdOf
      = [PyVal.int 5] :=
  ⟨rfl,
    executemany_generated_id_filter
      { data_api_response := Option.none, number_of_affected_rows := Option.none, returning_ids := [], lastrowid := Option.none }
      (("INSERT INTO t VALUES (1)").data) []
      { columnMetadata := Option.none, records := Option.none, httpStatusCode := 200, numberOfRecordsUpdated := Option.none, generatedFields := Option.none, updateResults := some [{ generatedFields := [{ tag := ("longValue").data, val := PyVal.int 0 }] }, { generatedFields := [{ tag := ("longValue").data, val := PyVal.int 5 }] }, { generatedFields := [] }] }
      [{ generatedFields := [{ tag := ("longValue").data, val := PyVal.int 0 }] }, { generatedFields := [{ tag := ("longValue").data, val := PyVal.int 5 }] }, { generatedFields := [] }]
      ((("INSERT INTO t VALUES (1)").data), []) rfl rfl,
    by decide⟩
